import Mathlib

/-!
Shallow embedding of the transport-and-runtime abstraction layer of the
trust-dns client library, covering:

* `crates/client/src/https_client_connection.rs` —
  `HttpsClientConnection<T>`, `HttpsClientConnectionBuilder<T>` and the
  `ClientConnection::new_stream` implementation;
* `crates/proto/src/runtime_provider.rs` — the `TokioRuntime` provider
  (`connect_tcp`, `spawn_bg`);
* `crates/resolver/src/tls/dns_over_native_tls.rs` — `new_tls_stream`.

External collaborators (rustls, tokio, the proto stream builders) are
embedded as opaque record types that capture exactly the data the source
hands to them; the network is an explicit oracle argument where the source
performs asynchronous I/O.  Rust `.clone()` on plain owned data is the
identity on values in this pure embedding and is written `cloneVal` so the
translation of each call site stays visible.
-/

/-- Rust `Clone::clone` on plain owned data: identity on pure values. -/
def cloneVal {α : Type} (x : α) : α := x

/-- `std::net::SocketAddr`, abstracted to an IP (as a number) and a port. -/
structure SocketAddr where
  ip : Nat
  port : Nat
  deriving DecidableEq, Repr

/-- `rustls::Certificate`: DER bytes plus an abstract flag recording whether
the (external) webpki parser accepts the certificate. -/
structure Certificate where
  der : List Nat
  well_formed : Bool
  deriving DecidableEq, Repr

/-- Error type of the external certificate parser (`webpki::Error`). -/
inductive WebpkiError where
  | badDer : WebpkiError
  deriving DecidableEq, Repr

/-- `rustls::RootCertStore`: the set of trusted root certificates. -/
structure RootCertStore where
  roots : List Certificate
  deriving DecidableEq, Repr

/-- `rustls::RootCertStore::add`: accepts a well-formed certificate and
appends it to the store, rejects a malformed one with a parse error.  The
parsing itself is external (webpki); the embedding reads the abstract
`well_formed` flag. -/
def RootCertStore.add (self : RootCertStore) (ca : Certificate) :
    Except WebpkiError RootCertStore :=
  if ca.well_formed then .ok ⟨self.roots ++ [ca]⟩ else .error .badDer

/-- `rustls::ClientConfig`, reduced to the part this layer touches: the
root trust store used for server authentication. -/
structure ClientConfig where
  root_store : RootCertStore
  deriving DecidableEq, Repr

/-- `rustls::ClientConfig::new()`: fresh configuration, empty trust store. -/
def ClientConfig.new : ClientConfig := ⟨⟨[]⟩⟩

/-- Rust `Result::expect(msg)`: returns the value on `Ok`, aborts the
process with `msg` on `Err`.  The abort is modelled as the `.error` branch
of the resulting `Except String`. -/
def expect {ε α : Type} (r : Except ε α) (msg : String) : Except String α :=
  match r with
  | .ok a => .ok a
  | .error _ => .error msg

/-- The TSIG `Signer` credential, consumed opaquely by this layer. -/
structure Signer where
  key_id : Nat
  deriving DecidableEq, Repr

/-- `trust_dns_proto::https::HttpsClientStreamBuilder` (external to this
layer): records the connector and the shared TLS client configuration it is
constructed with. -/
structure HttpsClientStreamBuilder (T : Type) where
  connector : T
  client_config : ClientConfig
  deriving DecidableEq

/-- `HttpsClientStreamBuilder::with_client_config`. -/
def HttpsClientStreamBuilder.with_client_config {T : Type}
    (connector : T) (client_config : ClientConfig) :
    HttpsClientStreamBuilder T :=
  ⟨connector, client_config⟩

/-- `trust_dns_proto::https::HttpsClientConnect<T>`: the sender future
returned by the stream builder, embedded as the record of everything the
builder captured to drive the eventual connection. -/
structure HttpsClientConnect (T : Type) where
  connector : T
  client_config : ClientConfig
  name_server : SocketAddr
  dns_name : String
  deriving DecidableEq

/-- `HttpsClientStreamBuilder::build(name_server, dns_name)`: packages the
staged connector and configuration with the target identity into the
connect future. -/
def HttpsClientStreamBuilder.build {T : Type}
    (self : HttpsClientStreamBuilder T) (name_server : SocketAddr)
    (dns_name : String) : HttpsClientConnect T :=
  ⟨self.connector, self.client_config, name_server, dns_name⟩

/-- `HttpsClientConnection<T>` from `https_client_connection.rs`. -/
structure HttpsClientConnection (T : Type) where
  name_server : SocketAddr
  dns_name : String
  client_config : ClientConfig
  connector : T
  deriving DecidableEq

/-- `#[derive(Clone)]` on `HttpsClientConnection<T>`: field-wise clone. -/
def HttpsClientConnection.clone {T : Type} (self : HttpsClientConnection T) :
    HttpsClientConnection T :=
  ⟨cloneVal self.name_server, cloneVal self.dns_name,
   cloneVal self.client_config, cloneVal self.connector⟩

/-- `ClientConnection::new_stream` for `HttpsClientConnection<T>`.  The
source takes `&self`, so the embedding passes the receiver state through
explicitly and returns it next to the produced sender future; the body
clones the stored connector and configuration for the stream builder and
never writes to the receiver.  The signer argument is accepted but unused,
exactly as in the source (`_signer`). -/
def HttpsClientConnection.new_stream {T : Type}
    (self : HttpsClientConnection T) (_signer : Option Signer) :
    HttpsClientConnection T × HttpsClientConnect T :=
  let https_builder := HttpsClientStreamBuilder.with_client_config
    (cloneVal self.connector) (cloneVal self.client_config)
  (self, https_builder.build self.name_server (cloneVal self.dns_name))

/-- `HttpsClientConnectionBuilder<T>`. -/
structure HttpsClientConnectionBuilder (T : Type) where
  client_config : ClientConfig
  connector : T
  deriving DecidableEq

/-- `HttpsClientConnectionBuilder::new(connector)`: fresh default TLS
configuration plus the given connector. -/
def HttpsClientConnectionBuilder.new {T : Type} (connector : T) :
    HttpsClientConnectionBuilder T :=
  ⟨ClientConfig.new, connector⟩

/-- `HttpsClientConnectionBuilder::with_client_config`. -/
def HttpsClientConnectionBuilder.with_client_config {T : Type}
    (client_config : ClientConfig) (connector : T) :
    HttpsClientConnectionBuilder T :=
  ⟨client_config, connector⟩

/-- `HttpsClientConnectionBuilder::add_ca(ca)`: inserts the certificate
into the root trust store; on a rejected certificate the source calls
`Result::expect("bad certificate!")`, which aborts the process — the abort
is the `.error` branch here. -/
def HttpsClientConnectionBuilder.add_ca {T : Type}
    (self : HttpsClientConnectionBuilder T) (ca : Certificate) :
    Except String (HttpsClientConnectionBuilder T) :=
  (expect (self.client_config.root_store.add ca) "bad certificate!").map
    fun rs =>
      { self with client_config := { self.client_config with root_store := rs } }

/-- `HttpsClientConnectionBuilder::build(name_server, dns_name)`: freezes
the staged state into a connection. -/
def HttpsClientConnectionBuilder.build {T : Type}
    (self : HttpsClientConnectionBuilder T) (name_server : SocketAddr)
    (dns_name : String) : HttpsClientConnection T :=
  ⟨name_server, dns_name, self.client_config, self.connector⟩

/-- Rust `Default` bound used by the source (`T: TcpConnector + Default`). -/
class RustDefault (α : Type) where
  default : α

/-- `impl Default for HttpsClientConnectionBuilder<T>`: default TLS
configuration and the default connector of `T`. -/
def HttpsClientConnectionBuilder.default {T : Type} [RustDefault T] :
    HttpsClientConnectionBuilder T :=
  ⟨ClientConfig.new, RustDefault.default⟩

/-- `HttpsClientConnection::<T>::new()`: returns the default builder. -/
def HttpsClientConnection.new (T : Type) [RustDefault T] :
    HttpsClientConnectionBuilder T :=
  HttpsClientConnectionBuilder.default

/-- `HttpsClientConnection::with_connector(connector)`. -/
def HttpsClientConnection.with_connector {T : Type} (connector : T) :
    HttpsClientConnectionBuilder T :=
  HttpsClientConnectionBuilder.new connector

/-- `std::io::Error`, abstracted to a code. -/
structure IoError where
  code : Nat
  deriving DecidableEq, Repr

/-- A connected `tokio::net::TcpStream`, abstracted to its descriptor. -/
structure TcpStream where
  fd : Nat
  deriving DecidableEq, Repr

/-- `trust_dns_proto::iocompat::AsyncIoTokioAsStd` wrapper around a tokio
stream. -/
structure AsyncIoTokioAsStd where
  stream : TcpStream
  deriving DecidableEq, Repr

/-- `TokioRuntime`: the unit runtime-provider value. -/
inductive TokioRuntime : Type where
  | mk : TokioRuntime
  deriving DecidableEq, Repr

/-- `TokioRuntime::connect_tcp(addr)`: calls the external
`tokio::net::TcpStream::connect` (the `net` oracle argument gives the
outcome of that call per address) and wraps a successful stream in
`AsyncIoTokioAsStd`, propagating the I/O error otherwise — the body is
`connect(addr).await.map(AsyncIoTokioAsStd)`. -/
def TokioRuntime.connect_tcp
    (net : SocketAddr → Except IoError TcpStream)
    (_self : TokioRuntime) (addr : SocketAddr) :
    Except IoError AsyncIoTokioAsStd :=
  (net addr).map AsyncIoTokioAsStd.mk

/-- `trust_dns_proto::error::ProtoError`, abstracted to a message. -/
inductive ProtoError where
  | msg : String → ProtoError
  deriving DecidableEq, Repr

/-- `tokio::task::JoinHandle`, abstracted to the spawned task id. -/
structure JoinHandle where
  task_id : Nat
  deriving DecidableEq, Repr

/-- The observable state of the tokio executor: the futures handed to
`tokio::spawn`, each embedded as its eventual `Result<(), ProtoError>`. -/
structure TokioWorld where
  tasks : List (Except ProtoError Unit)
  deriving Repr

/-- External `tokio::spawn`: registers the future with the executor and
returns a join handle for it. -/
def tokioSpawn (w : TokioWorld) (future : Except ProtoError Unit) :
    TokioWorld × JoinHandle :=
  (⟨w.tasks ++ [future]⟩, ⟨w.tasks.length⟩)

/-- `TokioRuntime::spawn_bg(future)`: spawns the future on the executor
and drops the join handle (`let _join = tokio::spawn(future);`), returning
unit to the caller.  The `&mut self` receiver is threaded through. -/
def TokioRuntime.spawn_bg (self : TokioRuntime) (w : TokioWorld)
    (future : Except ProtoError Unit) : TokioRuntime × TokioWorld × Unit :=
  let spawned := tokioSpawn w future
  let _join := spawned.2
  (self, spawned.1, ())

/-- `trust_dns_proto::BufDnsStreamHandle`: the send handle, recording the
remote address and the messages buffered before the connection resolves. -/
structure BufDnsStreamHandle where
  remote_addr : SocketAddr
  buffered : List (List Nat)
  deriving DecidableEq, Repr

/-- A fresh send handle with an empty buffer. -/
def BufDnsStreamHandle.new (remote_addr : SocketAddr) : BufDnsStreamHandle :=
  ⟨remote_addr, []⟩

/-- Modelled from the spec: `proto::native_tls::TlsClientStreamBuilder`
is repository code outside the excerpt; per spec section 4.2 its
construction takes a runtime-provider instance used for the TCP connect. -/
structure TlsClientStreamBuilder (R : Type) where
  runtime : R
  deriving DecidableEq

/-- `TlsClientStreamBuilder::new(runtime)`. -/
def TlsClientStreamBuilder.new {R : Type} (runtime : R) :
    TlsClientStreamBuilder R :=
  ⟨runtime⟩

/-- The pending TLS connection: a suspended description of the TCP connect
plus handshake that the returned future will perform. -/
structure TlsConnectFuture (R : Type) where
  runtime : R
  name_server : SocketAddr
  dns_name : String
  deriving DecidableEq

/-- A connected, handshake-complete TLS client stream over a transport
connection of type `S`. -/
structure TlsClientStream (S : Type) where
  stream : S
  dns_name : String
  deriving DecidableEq

/-- Modelled from the spec: resolving the TLS connect future first runs the
TCP connect through the runtime provider, then the handshake validating the
server certificate against `dns_name`; both failure modes surface as a
protocol error.  `net` and `handshake` are the external oracles for the two
suspension points. -/
def TlsConnectFuture.resolve {R S : Type}
    (net : R → SocketAddr → Except ProtoError S)
    (handshake : S → String → Except ProtoError (TlsClientStream S))
    (f : TlsConnectFuture R) : Except ProtoError (TlsClientStream S) :=
  match net f.runtime f.name_server with
  | .error e => .error e
  | .ok s => handshake s f.dns_name

/-- Modelled from the spec: `TlsClientStreamBuilder::build(name_server,
dns_name)` returns the pair of the connect-and-handshake future and a send
handle that is valid immediately, before the future resolves; the handle is
built synchronously with an empty buffer. -/
def TlsClientStreamBuilder.build {R : Type}
    (self : TlsClientStreamBuilder R) (name_server : SocketAddr)
    (dns_name : String) : TlsConnectFuture R × BufDnsStreamHandle :=
  (⟨self.runtime, name_server, dns_name⟩, BufDnsStreamHandle.new name_server)

/-- `new_tls_stream` from `dns_over_native_tls.rs`: constructs the TLS
stream builder from the runtime and delegates to its `build`. -/
def new_tls_stream {R : Type} (socket_addr : SocketAddr) (dns_name : String)
    (runtime : R) : TlsConnectFuture R × BufDnsStreamHandle :=
  let tls_builder := TlsClientStreamBuilder.new runtime
  tls_builder.build socket_addr dns_name

/-- A concrete connector type used to instantiate the generic theorems in
their witnesses. -/
structure TestConnector where
  id : Nat
  deriving DecidableEq, Repr

instance : RustDefault TestConnector := ⟨⟨0⟩⟩

/-- C1: `new_stream` does not depend on the signer argument — for any two
signer arguments the results coincide, and the produced sender future is
built exactly from the stored connector, client configuration, name server
and DNS name of the connection. -/
theorem new_stream_ignores_signer {T : Type} (c : HttpsClientConnection T)
    (s1 s2 : Option Signer) :
    c.new_stream s1 = c.new_stream s2 ∧
    (c.new_stream s1).2 =
      ⟨c.connector, c.client_config, c.name_server, c.dns_name⟩ := by
  exact ⟨rfl, rfl⟩

/-- C2: `add_ca` aborts (the `.error "bad certificate!"` branch, the
embedding of the `expect` process abort) exactly when the trust store
rejects the certificate as malformed; on an accepted certificate it returns
normally with the certificate appended to the root trust store and no other
change to the builder. -/
theorem add_ca_aborts_on_malformed {T : Type}
    (b : HttpsClientConnectionBuilder T) (ca : Certificate) :
    (ca.well_formed = false → b.add_ca ca = .error "bad certificate!") ∧
    (ca.well_formed = true → b.add_ca ca =
      .ok { b with client_config :=
        { b.client_config with root_store :=
          ⟨b.client_config.root_store.roots ++ [ca]⟩ } }) := by
  constructor <;> intro h <;>
    simp [HttpsClientConnectionBuilder.add_ca, RootCertStore.add, expect, h,
      Except.map]

/-- Witness for C2 at a concrete builder, one malformed and one accepted
certificate. -/
theorem add_ca_aborts_on_malformed_witness :
    (HttpsClientConnectionBuilder.new (⟨0⟩ : TestConnector)).add_ca
        ⟨[1], false⟩ = .error "bad certificate!" ∧
    (HttpsClientConnectionBuilder.new (⟨0⟩ : TestConnector)).add_ca
        ⟨[2], true⟩ =
      .ok ⟨⟨⟨[⟨[2], true⟩]⟩⟩, ⟨0⟩⟩ :=
  ⟨(add_ca_aborts_on_malformed _ _).1 rfl,
   (add_ca_aborts_on_malformed _ _).2 rfl⟩

/-- C3: `build` is a pure transformation — the resulting connection takes
`name_server` and `dns_name` from the arguments and the configuration and
connector unchanged from the staged builder. -/
theorem build_freezes_staged_state {T : Type}
    (b : HttpsClientConnectionBuilder T) (ns : SocketAddr) (dn : String) :
    (b.build ns dn).name_server = ns ∧
    (b.build ns dn).dns_name = dn ∧
    (b.build ns dn).client_config = b.client_config ∧
    (b.build ns dn).connector = b.connector :=
  ⟨rfl, rfl, rfl, rfl⟩

/-- C4: `build` is a deterministic function of the staged state and its
arguments — two builders with equal configuration and connector build equal
connections — and it carries the staged certificate set over unchanged. -/
theorem build_deterministic {T : Type}
    (b1 b2 : HttpsClientConnectionBuilder T) (ns : SocketAddr) (dn : String)
    (hc : b1.client_config = b2.client_config)
    (hk : b1.connector = b2.connector) :
    b1.build ns dn = b2.build ns dn ∧
    (b1.build ns dn).client_config.root_store =
      b1.client_config.root_store := by
  refine ⟨?_, rfl⟩
  simp [HttpsClientConnectionBuilder.build, hc, hk]

/-- Witness for C4 at two concrete builders staged with the same
certificate set. -/
theorem build_deterministic_witness :
    HttpsClientConnectionBuilder.build
        (⟨⟨⟨[⟨[5], true⟩]⟩⟩, (⟨3⟩ : TestConnector)⟩) ⟨1, 443⟩ "dns.example" =
      HttpsClientConnectionBuilder.build
        (⟨⟨⟨[⟨[5], true⟩]⟩⟩, (⟨3⟩ : TestConnector)⟩) ⟨1, 443⟩ "dns.example" ∧
    (HttpsClientConnectionBuilder.build
        (⟨⟨⟨[⟨[5], true⟩]⟩⟩, (⟨3⟩ : TestConnector)⟩) ⟨1, 443⟩
        "dns.example").client_config.root_store = ⟨[⟨[5], true⟩]⟩ :=
  build_deterministic _ _ _ _ rfl rfl

/-- C5: `new_stream` never mutates the connection — the receiver comes back
unchanged — and hands the stream builder clones of the stored configuration,
connector and DNS name together with the name server. -/
theorem new_stream_frame {T : Type} (c : HttpsClientConnection T)
    (s : Option Signer) :
    (c.new_stream s).1 = c ∧
    (c.new_stream s).2.client_config = cloneVal c.client_config ∧
    (c.new_stream s).2.connector = cloneVal c.connector ∧
    (c.new_stream s).2.name_server = c.name_server ∧
    (c.new_stream s).2.dns_name = cloneVal c.dns_name := by
  exact ⟨rfl, rfl, rfl, rfl, rfl⟩

/-- C6: cloning duplicates configuration — every field of the clone equals
the original — and calling `new_stream` through either value leaves the
trust configuration held by the other untouched. -/
theorem clone_duplicates_configuration {T : Type}
    (c : HttpsClientConnection T) (s : Option Signer) :
    c.clone.name_server = c.name_server ∧
    c.clone.dns_name = c.dns_name ∧
    c.clone.client_config = c.client_config ∧
    c.clone.connector = c.connector ∧
    (c.clone.new_stream s).1.client_config = c.clone.client_config ∧
    (c.new_stream s).1.client_config = c.client_config := by
  exact ⟨rfl, rfl, rfl, rfl, rfl, rfl⟩

/-- C7: `new_tls_stream` returns exactly the pair produced by
`TlsClientStreamBuilder::new(runtime).build(socket_addr, dns_name)`, and
the send handle component is constructed synchronously (a fresh empty
handle for the target address, independent of any future resolution). -/
theorem new_tls_stream_delegates {R : Type} (a : SocketAddr) (n : String)
    (r : R) :
    new_tls_stream a n r =
      (TlsClientStreamBuilder.new r).build a n ∧
    (new_tls_stream a n r).2 = BufDnsStreamHandle.new a :=
  ⟨rfl, rfl⟩

/-- C8: for the tokio provider, `connect_tcp` resolves to `Ok` wrapping the
connected stream exactly when the underlying TCP connect succeeds, and to
`Err` carrying the underlying I/O error exactly when it fails; the two
cases are exhaustive. -/
theorem connect_tcp_mirrors_underlying
    (net : SocketAddr → Except IoError TcpStream) (rt : TokioRuntime)
    (addr : SocketAddr) :
    (∀ s : TcpStream,
      TokioRuntime.connect_tcp net rt addr = .ok ⟨s⟩ ↔ net addr = .ok s) ∧
    (∀ e : IoError,
      TokioRuntime.connect_tcp net rt addr = .error e ↔
        net addr = .error e) := by
  constructor <;> intro x <;>
    cases h : net addr <;>
    simp [TokioRuntime.connect_tcp, Except.map, h]

/-- C9: `spawn_bg` registers the future with the executor, discards the
join handle and returns unit to the caller: the caller-visible result is
the unchanged runtime value and `()` — no handle, independent of the
eventual outcome of the spawned future. -/
theorem spawn_bg_fire_and_forget (rt : TokioRuntime) (w : TokioWorld)
    (f g : Except ProtoError Unit) :
    TokioRuntime.spawn_bg rt w f = (rt, ⟨w.tasks ++ [f]⟩, ()) ∧
    (TokioRuntime.spawn_bg rt w f).1 = (TokioRuntime.spawn_bg rt w g).1 ∧
    (TokioRuntime.spawn_bg rt w f).2.2 =
      (TokioRuntime.spawn_bg rt w g).2.2 :=
  ⟨rfl, rfl, rfl⟩

/-- C10: `HttpsClientConnection::<T>::new()` returns the default builder:
fresh default TLS configuration with an empty trust store and the default
connector; and `HttpsClientConnectionBuilder::new(connector)` coincides
with `with_client_config(ClientConfig::new(), connector)`. -/
theorem new_returns_default_builder (T : Type) [RustDefault T] (conn : T) :
    HttpsClientConnection.new T =
      (HttpsClientConnectionBuilder.default : HttpsClientConnectionBuilder T) ∧
    (HttpsClientConnectionBuilder.default :
      HttpsClientConnectionBuilder T).client_config = ClientConfig.new ∧
    (HttpsClientConnectionBuilder.default :
      HttpsClientConnectionBuilder T).client_config.root_store.roots = [] ∧
    (HttpsClientConnectionBuilder.default :
      HttpsClientConnectionBuilder T).connector =
      (RustDefault.default : T) ∧
    HttpsClientConnectionBuilder.new conn =
      HttpsClientConnectionBuilder.with_client_config ClientConfig.new conn :=
  ⟨rfl, rfl, rfl, rfl, rfl⟩
